import Mathlib

/-!
# Verification of the calsun sunrise/sunset calendar core

Shallow embedding of the calculation core of the calsun Go service:

* `services/sun.go`: `GetSunTimes`, `newSunEvent`, `GetSunTimesRange`,
  `radToDeg`, `DaysUntilNextSolstice`, `GetTimezone`;
* `handlers/calendar.go`: `buildDescription`.

Modelling conventions:

* Instants (Go `time.Time`) are modelled as whole seconds since the Unix
  epoch (`Int`), in UTC.  Go's `time` package uses the proleptic Gregorian
  calendar; civil-date conversions are modelled by the standard
  days-from-civil / civil-from-days algorithms over `Int` with
  floor semantics (Lean's `/` on `Int` is Euclidean division, which for the
  positive divisors used here coincides with floor division).
  `t.AddDate(0, 0, i)` on a UTC instant adds exactly `i * 86400` seconds.
* Go `float64` values (coordinates, angles) are modelled as exact rationals
  `ℚ`; `math.Pi` is the exact rational value of the `float64` constant.
* In `DaysUntilNextSolstice` the Go source divides whole-day durations via
  `Sub(..).Hours() / 24` and truncates with `int(..)`.  All the durations
  involved are exact multiples of 24 hours (midnight-to-midnight UTC, Go
  time has no leap seconds), the `float64` computation is exact, and the
  truncated quotient equals the exact integer quotient, so the model uses
  exact integer division of the second counts.
* Go's truncating integer division/remainder (`/`, `%` on `int`) are
  `Int.tdiv` / `Int.tmod`.
* The third-party astronomical library `github.com/sixdouglas/suncalc` is
  not part of the repository; where a claim depends only on the shape of
  its interface it is a parameter (`SunCalc`), and where a claim depends on
  the astronomy itself it is modelled from the spec over exact reals
  (see `sunPosAzimuth`, `computeDay` below).
-/

/-! ## Civil-date arithmetic (model of Go `time.Date` / `Year`/`Month`/`Day`) -/

/-- Day number (days since 1970-01-01) of a proleptic-Gregorian civil date,
the standard days-from-civil algorithm with floor division.  Models Go's
`time.Date(y, m, d, 0, 0, 0, 0, time.UTC).Unix() / 86400`. -/
def daysFromCivil (y m d : Int) : Int :=
  let y' : Int := if m ≤ 2 then y - 1 else y
  let era : Int := y' / 400
  let yoe : Int := y' - era * 400
  let mp : Int := if m > 2 then m - 3 else m + 9
  let doy : Int := (153 * mp + 2) / 5 + d - 1
  let doe : Int := yoe * 365 + yoe / 4 - yoe / 100 + doy
  era * 146097 + doe - 719468

/-- Civil date `(year, month, day)` of a day number, the standard
civil-from-days algorithm; inverse of `daysFromCivil`.  Models Go's
`t.Year()`, `t.Month()`, `t.Day()` for a UTC instant. -/
def civilFromDays (z0 : Int) : Int × Int × Int :=
  let z : Int := z0 + 719468
  let era : Int := z / 146097
  let doe : Int := z - era * 146097
  let yoe : Int := (doe - doe / 1460 + doe / 36524 - doe / 146096) / 365
  let y : Int := yoe + era * 400
  let doy : Int := doe - (365 * yoe + yoe / 4 - yoe / 100)
  let mp : Int := (5 * doy + 2) / 153
  let d : Int := doy - (153 * mp + 2) / 5 + 1
  let m : Int := if mp < 10 then mp + 3 else mp - 9
  (if m ≤ 2 then y + 1 else y, m, d)

/-! ## `services/sun.go`: `DaysUntilNextSolstice` -/

/-- Embeds `DaysUntilNextSolstice` (services/sun.go).  The Go function takes
`date time.Time`, reads its civil fields, anchors the approximate solstices
at June 21 / December 21 of that year (midnight UTC), normalises the date to
midnight UTC, rolls a candidate to the next year when it has already passed,
and returns the closer one, ties favouring summer (`<=`). -/
def DaysUntilNextSolstice (t : Int) : Int × String :=
  let ymd := civilFromDays (t / 86400)
  let year := ymd.1
  let month := ymd.2.1
  let day := ymd.2.2
  let summerSolstice : Int := 86400 * daysFromCivil year 6 21
  let winterSolstice : Int := 86400 * daysFromCivil year 12 21
  let dateNorm : Int := 86400 * daysFromCivil year month day
  let daysToSummer : Int := (summerSolstice - dateNorm) / 86400
  let daysToWinter : Int := (winterSolstice - dateNorm) / 86400
  let daysToSummer : Int :=
    if daysToSummer < 0 then (86400 * daysFromCivil (year + 1) 6 21 - dateNorm) / 86400
    else daysToSummer
  let daysToWinter : Int :=
    if daysToWinter < 0 then (86400 * daysFromCivil (year + 1) 12 21 - dateNorm) / 86400
    else daysToWinter
  if daysToSummer ≤ daysToWinter then (daysToSummer, "summer") else (daysToWinter, "winter")

/-! ## `services/sun.go`: data model and wrappers around the suncalc library -/

/-- Embeds the `SunEvent` struct (services/sun.go): a sunrise or sunset
event.  `type` is the Go `Type` string field ("sunrise" or "sunset"),
`time` the event instant, `azimuth`/`elevation` the angles in degrees. -/
structure SunEvent where
  type : String
  time : Int
  azimuth : ℚ
  elevation : ℚ
deriving DecidableEq

/-- Embeds the `DaySunTimes` struct (services/sun.go): sunrise and sunset
for a specific day; a `nil` event pointer is `none`. -/
structure DaySunTimes where
  date : Int
  sunrise : Option SunEvent
  sunset : Option SunEvent
deriving DecidableEq

/-- Interface of the external `suncalc` library as consumed by
services/sun.go.  `sunriseTime`/`sunsetTime` give the optional event
instants for a day (`none` models the zero `time.Time` that the library
returns on polar day/night, which `newSunEvent` checks with `IsZero`);
`position` gives the azimuth and altitude angles in radians at an instant.
The library is third-party code outside the repository, so it is kept
abstract here. -/
structure SunCalc where
  sunriseTime : ℚ → ℚ → Int → Option Int
  sunsetTime : ℚ → ℚ → Int → Option Int
  position : Int → ℚ → ℚ → ℚ × ℚ

/-- The exact rational value of the Go `float64` constant `math.Pi`. -/
def goPi : ℚ := mkRat 884279719003555 281474976710656

/-- Embeds `radToDeg` (services/sun.go): `rad * 180 / math.Pi` over the
rational model of `float64`. -/
def radToDeg (rad : ℚ) : ℚ := rad * 180 / goPi

/-- Embeds `newSunEvent` (services/sun.go): returns `none` when the library
time is the zero time, otherwise queries the sun position and converts the
azimuth from the library's south-referenced `[-π, π]` radians to degrees by
the `radToDeg(az) + 180` shift. -/
def newSunEvent (sc : SunCalc) (eventType : String) (t : Option Int) (lat lng : ℚ) :
    Option SunEvent :=
  match t with
  | none => none
  | some tt =>
      some { type := eventType, time := tt,
             azimuth := radToDeg (sc.position tt lat lng).1 + 180,
             elevation := radToDeg (sc.position tt lat lng).2 }

/-- Embeds `GetSunTimes` (services/sun.go): one day's sunrise/sunset. -/
def GetSunTimes (sc : SunCalc) (lat lng : ℚ) (date : Int) : DaySunTimes :=
  { date := date,
    sunrise := newSunEvent sc "sunrise" (sc.sunriseTime lat lng date) lat lng,
    sunset := newSunEvent sc "sunset" (sc.sunsetTime lat lng date) lat lng }

/-- Embeds the loop of `GetSunTimesRange` (services/sun.go):
`for i := 0; i < days; i++` appending `GetSunTimes(lat, lng,
startDate.AddDate(0, 0, i))`; on a UTC start date `AddDate(0, 0, i)` adds
`i * 86400` seconds.  This models the function for `days ≥ 0` (where the
loop runs `days` times, zero times at `days = 0`); the Go function first
allocates `make([]DaySunTimes, 0, days)`, which for a negative `days`
panics at run time before the loop — that failure path is modelled by
`GetSunTimesRangeChecked` below. -/
def GetSunTimesRange (sc : SunCalc) (lat lng : ℚ) (startDate : Int) (days : Int) :
    List DaySunTimes :=
  (List.range days.toNat).map fun (i : Nat) => GetSunTimes sc lat lng (startDate + 86400 * (i : Int))

/-- Models Go's `make([]DaySunTimes, 0, cap)`: a negative capacity is a
run-time panic ("makeslice: cap out of range"), modelled as `none`;
otherwise the empty slice is allocated. -/
def makeSlice (cap : Int) : Option (List DaySunTimes) :=
  if cap < 0 then none else some []

/-- Embeds `GetSunTimesRange` (services/sun.go) including its initial
`results := make([]DaySunTimes, 0, days)` allocation: for `days < 0` the
Go function panics there, before the loop, modelled as `none`; otherwise
the loop appends one `GetSunTimes` result per day offset to the allocated
empty slice. -/
def GetSunTimesRangeChecked (sc : SunCalc) (lat lng : ℚ) (startDate : Int) (days : Int) :
    Option (List DaySunTimes) :=
  match makeSlice days with
  | none => none
  | some results =>
      some (results ++ (List.range days.toNat).map fun (i : Nat) =>
        GetSunTimes sc lat lng (startDate + 86400 * (i : Int)))

/-! ## `services/sun.go`: `GetTimezone` -/

/-- Model of Go's `*time.Location` as far as the core uses it: the UTC
offset in seconds it assigns to each absolute instant (`t.In(loc)` wall
clock = `t` + offset). -/
abbrev Location := Int → Int

/-- `time.UTC`: offset 0 everywhere. -/
def utcLoc : Location := fun _ => 0

/-- Embeds `GetTimezone` (services/sun.go), parametric in its two external
collaborators: `latlong.LookupZoneName` (empty string = no zone found) and
`time.LoadLocation` (`none` models a loading error). -/
def GetTimezone (lookupZoneName : ℚ → ℚ → String)
    (loadLocation : String → Option Location) (lat lng : ℚ) : Location :=
  let zoneName := lookupZoneName lat lng
  if zoneName = "" then utcLoc
  else
    match loadLocation zoneName with
    | none => utcLoc
    | some loc => loc

/-- A concrete library instance used to instantiate hypotheses of the
universally quantified theorems below on concrete inputs. -/
def constCalc : SunCalc :=
  { sunriseTime := fun _ _ d => some (d + 21600),
    sunsetTime := fun _ _ d => some (d + 64800),
    position := fun _ _ _ => (0, 0) }

/-! ## `handlers/calendar.go`: `buildDescription` -/

/-- Wall-clock seconds since local midnight of instant `t` in location `tz`:
Go's `t.In(tz).Hour()*3600 + Minute()*60 + Second()`. -/
def wallSeconds (tz : Location) (t : Int) : Int := (t + tz t) % 86400

/-- Two-digit zero padding for clock components (values 0..59). -/
def pad2 (n : Int) : String := if n < 10 then "0" ++ toString n else toString n

/-- Go's `localTime.Format("15:04:05")`. -/
def formatHMS (tz : Location) (t : Int) : String :=
  let ws := wallSeconds tz t
  pad2 (ws / 3600) ++ ":" ++ pad2 (ws % 3600 / 60) ++ ":" ++ pad2 (ws % 60)

/-- Zero-pad a digit string on the left to length `n`. -/
def padZeros (n : Nat) (s : String) : String :=
  String.mk (List.replicate (n - s.length) '0') ++ s

/-- Go's `fmt.Sprintf("%.Nf", q)` over the rational model of `float64`:
fixed-point rendering with `prec` digits after the point.  Rounding is to
the nearest representable value (half away from zero on exact ties, where
Go's correctly rounded binary formatting can differ; no claim depends on a
tie).  A value that rounds to 0 is printed unsigned, while Go would keep
the sign of a negative zero float; again no claim depends on this. -/
def formatFixed (prec : Nat) (q : ℚ) : String :=
  let n : Int := (2 * q.num * 10 ^ prec + (q.den : Int)) / (2 * (q.den : Int))
  let sign := if n < 0 then "-" else ""
  let a : Nat := n.natAbs
  let ip : Nat := a / 10 ^ prec
  let fp : Nat := a % 10 ^ prec
  if prec = 0 then sign ++ toString ip
  else sign ++ toString ip ++ "." ++ padZeros prec (toString fp)

/-- Embeds `buildDescription` (handlers/calendar.go) up to the final
`strings.Join(lines, "\n")`: the `lines` slice, built in source order.
Go's `int` division and remainder truncate toward zero (`Int.tdiv`,
`Int.tmod`); `int(d.Hours())` and `int(d.Minutes())` truncate the exact
hour/minute counts of the duration.  The azimuth format string in the
source is the byte sequence `"Azimuth: %.1fÂ°"` (C3 82 C2 B0: a stray
U+00C2 before the degree sign, mojibake committed in the repository), so
the rendered unit is the two-character string "Â°", not a bare degree
symbol. -/
def buildDescriptionLines (event : SunEvent) (day : DaySunTimes)
    (prevDay : Option DaySunTimes) (lat lng : ℚ) (location : String) (tz : Location) :
    List String :=
  let localSecs := wallSeconds tz event.time
  let base : List String :=
    ["Time: " ++ formatHMS tz event.time,
     "Location: " ++ location,
     "Coordinates: " ++ formatFixed 4 lat ++ ", " ++ formatFixed 4 lng,
     "Azimuth: " ++ formatFixed 1 event.azimuth ++ "Â°",
     ""]
  let dayLengthLines : List String :=
    match day.sunrise, day.sunset with
    | some r, some s =>
        let dayLength := s.time - r.time
        ["Day length: " ++ toString (Int.tdiv dayLength 3600) ++ "h "
          ++ toString (Int.tmod (Int.tdiv dayLength 60) 60) ++ "m"]
    | _, _ => []
  let yesterdayLines : List String :=
    match prevDay with
    | none => []
    | some p =>
        let prevEvent := if event.type = "sunrise" then p.sunrise else p.sunset
        match prevEvent with
        | none => []
        | some pe =>
            let deltaSeconds := localSecs - wallSeconds tz pe.time
            let deltaMinutes := Int.tdiv deltaSeconds 60
            if deltaMinutes ≠ 0 then
              ["Yesterday: "
                ++ toString (if deltaMinutes < 0 then -deltaMinutes else deltaMinutes)
                ++ "m " ++ (if deltaMinutes < 0 then "earlier" else "later")]
            else ["Yesterday: same time"]
  let solstice := DaysUntilNextSolstice event.time
  let solsticeLine : String :=
    if solstice.1 = 0 then "Today is the " ++ solstice.2 ++ " solstice!"
    else "Next solstice: " ++ toString solstice.1 ++ " days (" ++ solstice.2 ++ ")"
  base ++ dayLengthLines ++ yesterdayLines ++ [solsticeLine]

/-- Embeds `buildDescription` (handlers/calendar.go). -/
def buildDescription (event : SunEvent) (day : DaySunTimes)
    (prevDay : Option DaySunTimes) (lat lng : ℚ) (location : String) (tz : Location) :
    String :=
  String.intercalate "\n" (buildDescriptionLines event day prevDay lat lng location tz)

/-- The Report Builder text block as the spec words it (§4.2), for the
refinement claim C8: fixed line order — local time, location label,
coordinate pair (4 decimal places), azimuth (1 decimal place, degree
symbol), blank line, day length only when both sunrise and sunset are
present, wall-clock delta against the previous day's same-kind event only
when that event is present ("Xm later" / "Xm earlier" / "same time"), and
finally the solstice countdown ("Today is the {which} solstice!" at 0,
otherwise "Next solstice: N days ({which})"). -/
def describeSpec (event : SunEvent) (day : DaySunTimes)
    (prevDay : Option DaySunTimes) (lat lng : ℚ) (location : String) (tz : Location) :
    String :=
  let dayLengthLines : List String :=
    if h : day.sunrise.isSome ∧ day.sunset.isSome then
      let d := (day.sunset.get h.2).time - (day.sunrise.get h.1).time
      ["Day length: " ++ toString (Int.tdiv d 3600) ++ "h "
        ++ toString (Int.tmod (Int.tdiv d 60) 60) ++ "m"]
    else []
  let deltaLines : List String :=
    match prevDay.bind (fun p => if event.type = "sunrise" then p.sunrise else p.sunset) with
    | none => []
    | some pe =>
        let d := Int.tdiv (wallSeconds tz event.time - wallSeconds tz pe.time) 60
        if 0 < d then ["Yesterday: " ++ toString d ++ "m later"]
        else if d < 0 then ["Yesterday: " ++ toString (-d) ++ "m earlier"]
        else ["Yesterday: same time"]
  let countdown : String :=
    let ns := DaysUntilNextSolstice event.time
    if ns.1 = 0 then "Today is the " ++ ns.2 ++ " solstice!"
    else "Next solstice: " ++ toString ns.1 ++ " days (" ++ ns.2 ++ ")"
  String.intercalate "\n"
    (["Time: " ++ formatHMS tz event.time,
      "Location: " ++ location,
      "Coordinates: " ++ formatFixed 4 lat ++ ", " ++ formatFixed 4 lng,
      "Azimuth: " ++ formatFixed 1 event.azimuth ++ "°",
      ""]
      ++ dayLengthLines ++ deltaLines ++ [countdown])

/-- The Report Builder text block as the spec words it, amended per the
counterexample to claim C8: identical to `describeSpec` except that the
azimuth unit renders the source format string's literal byte sequence
"Â°" (stray U+00C2 before the degree sign) instead of a clean degree
symbol. -/
def describeSpecAmended (event : SunEvent) (day : DaySunTimes)
    (prevDay : Option DaySunTimes) (lat lng : ℚ) (location : String) (tz : Location) :
    String :=
  let dayLengthLines : List String :=
    if h : day.sunrise.isSome ∧ day.sunset.isSome then
      let d := (day.sunset.get h.2).time - (day.sunrise.get h.1).time
      ["Day length: " ++ toString (Int.tdiv d 3600) ++ "h "
        ++ toString (Int.tmod (Int.tdiv d 60) 60) ++ "m"]
    else []
  let deltaLines : List String :=
    match prevDay.bind (fun p => if event.type = "sunrise" then p.sunrise else p.sunset) with
    | none => []
    | some pe =>
        let d := Int.tdiv (wallSeconds tz event.time - wallSeconds tz pe.time) 60
        if 0 < d then ["Yesterday: " ++ toString d ++ "m later"]
        else if d < 0 then ["Yesterday: " ++ toString (-d) ++ "m earlier"]
        else ["Yesterday: same time"]
  let countdown : String :=
    let ns := DaysUntilNextSolstice event.time
    if ns.1 = 0 then "Today is the " ++ ns.2 ++ " solstice!"
    else "Next solstice: " ++ toString ns.1 ++ " days (" ++ ns.2 ++ ")"
  String.intercalate "\n"
    (["Time: " ++ formatHMS tz event.time,
      "Location: " ++ location,
      "Coordinates: " ++ formatFixed 4 lat ++ ", " ++ formatFixed 4 lng,
      "Azimuth: " ++ formatFixed 1 event.azimuth ++ "Â°",
      ""]
      ++ dayLengthLines ++ deltaLines ++ [countdown])

/-- The line is a day-over-day delta line ("Yesterday: ..."). -/
def isDeltaLine (s : String) : Prop := ∃ t, s = "Yesterday: " ++ t

/-- The line is a day-length line ("Day length: ..."). -/
def isDayLengthLine (s : String) : Prop := ∃ t, s = "Day length: " ++ t

/-! ## Spec model of the astronomical core (claims C1 and C2)

The spec (§4.1) pins the Sun-Event Calculator to "the reference
astronomical algorithm (solar declination, hour angle, refraction-corrected
horizon crossing) used by standard suncalc-style libraries, including the
~-0.833° effective horizon depression".  That algorithm lives in the
third-party `suncalc` dependency, which is not part of the repository, so
it is modelled here from the spec over exact reals:

* the per-day declination is abstracted as a real input `dec` (the claims
  quantify over "any coordinate and date"; a date enters the algorithm only
  through its declination and solar-noon instant);
* the hour angle of the horizon crossing is `arccos x` with
  `x = (sin h0 - sin φ sin δ) / (cos φ cos δ)`; both events exist exactly
  when `|x| ≤ 1`, sunrise at `noon - w·(43200/π)` seconds and sunset at
  `noon + w·(43200/π)` (half a day per π of hour angle), matching the
  spec's "polar day/night → both fields absent";
* the south-referenced azimuth at hour angle `H` is
  `atan2(sin H, cos H sin φ - tan δ cos φ)` with the mathematical `atan2`
  range `(-π, π]` (realised as `Complex.arg`), and the repository's
  `newSunEvent` shift `radToDeg(az) + 180` is applied to it; at sunrise the
  hour angle is `-w`, at sunset `+w`.
-/

/-- Mathematical two-argument arctangent, `atan2 y x = arg (x + iy)`,
with range `(-π, π]`. -/
noncomputable def atan2 (y x : ℝ) : ℝ := Complex.arg ⟨x, y⟩

/-- Modelled from the spec: the suncalc-style south-referenced azimuth of
the sun at hour angle `H`, latitude `phi` and declination `dec` (radians):
`atan2(sin H, cos H sin φ - tan δ cos φ)`. -/
noncomputable def sunPosAzimuth (H phi dec : ℝ) : ℝ :=
  atan2 (Real.sin H) (Real.cos H * Real.sin phi - Real.tan dec * Real.cos phi)

/-- The repository's `radToDeg` over exact reals. -/
noncomputable def radToDegReal (rad : ℝ) : ℝ := rad * 180 / Real.pi

/-- The azimuth field of `newSunEvent` over the spec model:
`radToDeg(azimuth) + 180`. -/
noncomputable def sunEventAzimuth (H phi dec : ℝ) : ℝ :=
  radToDegReal (sunPosAzimuth H phi dec) + 180

/-- Modelled from the spec: the ~-0.833° effective horizon altitude
(atmospheric refraction plus solar radius), in radians. -/
noncomputable def h0R : ℝ := -0.833 * Real.pi / 180

/-- Modelled from the spec: the cosine of the hour angle at which the sun
crosses the refraction-corrected horizon. -/
noncomputable def sunriseSetX (phi dec : ℝ) : ℝ :=
  (Real.sin h0R - Real.sin phi * Real.sin dec) / (Real.cos phi * Real.cos dec)

open Classical in
/-- Modelled from the spec: `computeDay` — the optional (instant, azimuth°)
pairs of the sunrise and sunset events for a day with solar noon at
`noon` seconds, latitude `phi` and declination `dec` (radians).  Both
events are absent exactly when the sun does not cross the horizon
(`|x| > 1`); the azimuth is the `newSunEvent` degree conversion of the
south-referenced azimuth at hour angle `∓ arccos x`. -/
noncomputable def computeDay (phi dec noon : ℝ) : Option (ℝ × ℝ) × Option (ℝ × ℝ) :=
  if |sunriseSetX phi dec| ≤ 1 then
    (some (noon - Real.arccos (sunriseSetX phi dec) * (43200 / Real.pi),
       sunEventAzimuth (-Real.arccos (sunriseSetX phi dec)) phi dec),
     some (noon + Real.arccos (sunriseSetX phi dec) * (43200 / Real.pi),
       sunEventAzimuth (Real.arccos (sunriseSetX phi dec)) phi dec))
  else (none, none)

/-- Latitude (radians) of the grazing-noon configuration: together with
`decGraze` it makes `sunriseSetX = 1` exactly — the sun touches the
refraction-corrected horizon at solar noon (about 73.6°N in midwinter). -/
noncomputable def phiGraze : ℝ := Real.pi / 2 - h0R - 3 / 10

/-- Declination (radians, ≈ -17.2°) of the grazing-noon configuration. -/
noncomputable def decGraze : ℝ := -(3 / 10)

/-- Latitude (radians) of the midnight-sun tangency configuration: together
with `decMidnight` it makes `sunriseSetX = -1` exactly — the sun grazes the
horizon due north at solar midnight (about 72°N in midsummer). -/
noncomputable def phiMidnight : ℝ := Real.pi / 2 + h0R - 3 / 10

/-- Declination (radians, ≈ 17.2°) of the midnight-sun configuration. -/
noncomputable def decMidnight : ℝ := 3 / 10

/-! ## Theorems -/

/-- The civil-from-days algorithm inverts days-from-civil at June 21 of an
arbitrary year, stated on the era/year-of-era decomposition. -/
lemma civilFromDays_inv_jun (era yoe : Int) (h1 : 0 ≤ yoe) (h2 : yoe ≤ 399) :
    civilFromDays (era * 146097 + (yoe * 365 + yoe / 4 - yoe / 100 + 112) - 719468)
      = (yoe + era * 400, 6, 21) := by
  have hz : era * 146097 + (yoe * 365 + yoe / 4 - yoe / 100 + 112) - 719468 + 719468
      = era * 146097 + (yoe * 365 + yoe / 4 - yoe / 100 + 112) := by ring
  simp only [civilFromDays]
  rw [hz]
  have hera : (era * 146097 + (yoe * 365 + yoe / 4 - yoe / 100 + 112)) / 146097 = era := by
    omega
  rw [hera]
  have hdoe : era * 146097 + (yoe * 365 + yoe / 4 - yoe / 100 + 112) - era * 146097
      = yoe * 365 + yoe / 4 - yoe / 100 + 112 := by ring
  rw [hdoe]
  have hyoe : (yoe * 365 + yoe / 4 - yoe / 100 + 112
      - (yoe * 365 + yoe / 4 - yoe / 100 + 112) / 1460
      + (yoe * 365 + yoe / 4 - yoe / 100 + 112) / 36524
      - (yoe * 365 + yoe / 4 - yoe / 100 + 112) / 146096) / 365 = yoe := by omega
  rw [hyoe]
  have hdoy : yoe * 365 + yoe / 4 - yoe / 100 + 112 - (365 * yoe + yoe / 4 - yoe / 100)
      = 112 := by ring
  rw [hdoy]
  norm_num

/-- The civil-from-days algorithm inverts days-from-civil at December 21 of
an arbitrary year, stated on the era/year-of-era decomposition. -/
lemma civilFromDays_inv_dec (era yoe : Int) (h1 : 0 ≤ yoe) (h2 : yoe ≤ 399) :
    civilFromDays (era * 146097 + (yoe * 365 + yoe / 4 - yoe / 100 + 295) - 719468)
      = (yoe + era * 400, 12, 21) := by
  have hz : era * 146097 + (yoe * 365 + yoe / 4 - yoe / 100 + 295) - 719468 + 719468
      = era * 146097 + (yoe * 365 + yoe / 4 - yoe / 100 + 295) := by ring
  simp only [civilFromDays]
  rw [hz]
  have hera : (era * 146097 + (yoe * 365 + yoe / 4 - yoe / 100 + 295)) / 146097 = era := by
    omega
  rw [hera]
  have hdoe : era * 146097 + (yoe * 365 + yoe / 4 - yoe / 100 + 295) - era * 146097
      = yoe * 365 + yoe / 4 - yoe / 100 + 295 := by ring
  rw [hdoe]
  have hyoe : (yoe * 365 + yoe / 4 - yoe / 100 + 295
      - (yoe * 365 + yoe / 4 - yoe / 100 + 295) / 1460
      + (yoe * 365 + yoe / 4 - yoe / 100 + 295) / 36524
      - (yoe * 365 + yoe / 4 - yoe / 100 + 295) / 146096) / 365 = yoe := by omega
  rw [hyoe]
  have hdoy : yoe * 365 + yoe / 4 - yoe / 100 + 295 - (365 * yoe + yoe / 4 - yoe / 100)
      = 295 := by ring
  rw [hdoy]
  norm_num

/-- Unfolding `daysFromCivil` at June 21. -/
lemma daysFromCivil_jun (y : Int) :
    daysFromCivil y 6 21
      = y / 400 * 146097
        + ((y - y / 400 * 400) * 365 + (y - y / 400 * 400) / 4 - (y - y / 400 * 400) / 100 + 112)
        - 719468 := by
  simp only [daysFromCivil]
  norm_num

/-- Unfolding `daysFromCivil` at December 21. -/
lemma daysFromCivil_dec (y : Int) :
    daysFromCivil y 12 21
      = y / 400 * 146097
        + ((y - y / 400 * 400) * 365 + (y - y / 400 * 400) / 4 - (y - y / 400 * 400) / 100 + 295)
        - 719468 := by
  simp only [daysFromCivil]
  norm_num

/-- Round trip: decomposing the day number of June 21 of year `y` recovers
the civil date `(y, 6, 21)`. -/
lemma civilFromDays_daysFromCivil_jun (y : Int) :
    civilFromDays (daysFromCivil y 6 21) = (y, 6, 21) := by
  rw [daysFromCivil_jun,
    civilFromDays_inv_jun (y / 400) (y - y / 400 * 400) (by omega) (by omega)]
  have h : y - y / 400 * 400 + y / 400 * 400 = y := by ring
  rw [h]

/-- Round trip: decomposing the day number of December 21 of year `y`
recovers the civil date `(y, 12, 21)`. -/
lemma civilFromDays_daysFromCivil_dec (y : Int) :
    civilFromDays (daysFromCivil y 12 21) = (y, 12, 21) := by
  rw [daysFromCivil_dec,
    civilFromDays_inv_dec (y / 400) (y - y / 400 * 400) (by omega) (by omega)]
  have h : y - y / 400 * 400 + y / 400 * 400 = y := by ring
  rw [h]

/-- June 21 to December 21 of the same year is always 183 days. -/
lemma daysFromCivil_jun_dec (y : Int) :
    daysFromCivil y 12 21 - daysFromCivil y 6 21 = 183 := by
  rw [daysFromCivil_jun, daysFromCivil_dec]
  ring

/-- December 21 to June 21 of the next year is 182 or 183 days, in
particular strictly positive. -/
lemma daysFromCivil_dec_jun_next (y : Int) :
    182 ≤ daysFromCivil (y + 1) 6 21 - daysFromCivil y 12 21 ∧
      daysFromCivil (y + 1) 6 21 - daysFromCivil y 12 21 ≤ 183 := by
  rw [daysFromCivil_jun, daysFromCivil_dec]
  omega

/-- **C4.** `DaysUntilNextSolstice` returns (172, summer) for 2024-01-01 UTC,
(81, winter) for 2024-10-01 UTC and (181, summer) for 2024-12-22 UTC (rolling
into the next year's June solstice). -/
theorem daysUntilNextSolstice_c4_examples :
    DaysUntilNextSolstice 1704067200 = (172, "summer") ∧
      DaysUntilNextSolstice 1727740800 = (81, "winter") ∧
      DaysUntilNextSolstice 1734825600 = (181, "summer") := by
  refine ⟨?_, ?_, ?_⟩ <;> decide

/-- **C5.** On the approximate solstice dates themselves (June 21 and
December 21, midnight UTC, any year) `DaysUntilNextSolstice` returns 0 days
together with the matching season. -/
theorem daysUntilNextSolstice_on_solstice (y : Int) :
    DaysUntilNextSolstice (86400 * daysFromCivil y 6 21) = (0, "summer") ∧
      DaysUntilNextSolstice (86400 * daysFromCivil y 12 21) = (0, "winter") := by
  constructor
  · have hday : 86400 * daysFromCivil y 6 21 / 86400 = daysFromCivil y 6 21 := by omega
    have h183 := daysFromCivil_jun_dec y
    simp only [DaysUntilNextSolstice, hday, civilFromDays_daysFromCivil_jun]
    norm_num
    omega
  · have hday : 86400 * daysFromCivil y 12 21 / 86400 = daysFromCivil y 12 21 := by omega
    have h183 := daysFromCivil_jun_dec y
    have hnext := daysFromCivil_dec_jun_next y
    simp only [DaysUntilNextSolstice, hday, civilFromDays_daysFromCivil_dec]
    norm_num
    omega

/-- **C3.** For every library behaviour, coordinate, start date and positive
`days`, `GetSunTimesRange` returns exactly `days` entries; entry `i` is
`GetSunTimes` applied at day offset `i` (one civil day = 86400 s in UTC),
and consecutive dates increase by exactly one civil day. -/
theorem getSunTimesRange_spec (sc : SunCalc) (lat lng : ℚ) (startDate days : Int)
    (hdays : 0 < days) :
    ((GetSunTimesRange sc lat lng startDate days).length : Int) = days ∧
      (∀ i : Nat, ∀ h : i < (GetSunTimesRange sc lat lng startDate days).length,
        (GetSunTimesRange sc lat lng startDate days).get ⟨i, h⟩
          = GetSunTimes sc lat lng (startDate + 86400 * i)) ∧
      (∀ i : Nat, ∀ h : i + 1 < (GetSunTimesRange sc lat lng startDate days).length,
        ((GetSunTimesRange sc lat lng startDate days).get ⟨i + 1, h⟩).date
          = ((GetSunTimesRange sc lat lng startDate days).get
              ⟨i, Nat.lt_of_succ_lt h⟩).date + 86400) := by
  refine ⟨?_, ?_, ?_⟩
  · simp only [GetSunTimesRange, List.length_map, List.length_range]
    omega
  · intro i h
    simp only [GetSunTimesRange, List.get_eq_getElem, List.getElem_map, List.getElem_range]
  · intro i h
    simp only [GetSunTimesRange, List.get_eq_getElem, List.getElem_map, List.getElem_range,
      GetSunTimes]
    push_cast
    ring

/-- Witness for C3 at a concrete library, coordinate and 2-day range. -/
theorem getSunTimesRange_spec_witness :
    ((GetSunTimesRange constCalc 0 0 0 2).length : Int) = 2 ∧
      (∀ i : Nat, ∀ h : i < (GetSunTimesRange constCalc 0 0 0 2).length,
        (GetSunTimesRange constCalc 0 0 0 2).get ⟨i, h⟩
          = GetSunTimes constCalc 0 0 (0 + 86400 * i)) ∧
      (∀ i : Nat, ∀ h : i + 1 < (GetSunTimesRange constCalc 0 0 0 2).length,
        ((GetSunTimesRange constCalc 0 0 0 2).get ⟨i + 1, h⟩).date
          = ((GetSunTimesRange constCalc 0 0 0 2).get
              ⟨i, Nat.lt_of_succ_lt h⟩).date + 86400) :=
  getSunTimesRange_spec constCalc 0 0 0 2 (by norm_num)

/-- For a non-negative day count the `make` allocation succeeds and the
checked function returns exactly the loop's result. -/
lemma getSunTimesRangeChecked_of_nonneg (sc : SunCalc) (lat lng : ℚ)
    (startDate days : Int) (hdays : 0 ≤ days) :
    GetSunTimesRangeChecked sc lat lng startDate days
      = some (GetSunTimesRange sc lat lng startDate days) := by
  simp [GetSunTimesRangeChecked, makeSlice, GetSunTimesRange, Int.not_lt.2 hdays]

/-- **C10 (amended).** `days = 0` yields the empty sequence, but for a
negative `days` the Go function fails — `make([]DaySunTimes, 0, days)`
panics on a negative capacity before the loop runs — rather than return an
empty sequence. -/
theorem getSunTimesRange_zero_or_panic (sc : SunCalc) (lat lng : ℚ)
    (startDate days : Int) :
    (days = 0 → GetSunTimesRangeChecked sc lat lng startDate days = some []) ∧
      (days < 0 → GetSunTimesRangeChecked sc lat lng startDate days = none) := by
  constructor
  · intro h
    subst h
    simp [GetSunTimesRangeChecked, makeSlice]
  · intro h
    simp [GetSunTimesRangeChecked, makeSlice, h]

/-- Witness for C10 at a concrete library: `days = 0` returns the empty
sequence and `days = -3` hits the allocation panic. -/
theorem getSunTimesRange_zero_or_panic_witness :
    GetSunTimesRangeChecked constCalc 0 0 0 0 = some [] ∧
      GetSunTimesRangeChecked constCalc 0 0 0 (-3) = none :=
  ⟨(getSunTimesRange_zero_or_panic constCalc 0 0 0 0).1 rfl,
   (getSunTimesRange_zero_or_panic constCalc 0 0 0 (-3)).2 (by norm_num)⟩

/-- Counterexample to C10 as stated: at `days = -1` the function fails at
the `make` allocation (modelled `none`) instead of returning the empty
sequence. -/
theorem getSunTimesRange_neg_fails :
    GetSunTimesRangeChecked constCalc 0 0 0 (-1) = none ∧
      ¬ GetSunTimesRangeChecked constCalc 0 0 0 (-1) = some [] := by
  constructor <;> decide

/-- **C9.** `GetTimezone` always returns a timezone: it falls back to UTC
both when the coordinate maps to no known zone (empty zone name) and when
the zone cannot be loaded, and returns the loaded zone otherwise; there is
no error path. -/
theorem getTimezone_total_fallback (lookupZoneName : ℚ → ℚ → String)
    (loadLocation : String → Option Location) (lat lng : ℚ) :
    (lookupZoneName lat lng = "" →
      GetTimezone lookupZoneName loadLocation lat lng = utcLoc) ∧
      (loadLocation (lookupZoneName lat lng) = none →
        GetTimezone lookupZoneName loadLocation lat lng = utcLoc) ∧
      (∀ loc, lookupZoneName lat lng ≠ "" →
        loadLocation (lookupZoneName lat lng) = some loc →
        GetTimezone lookupZoneName loadLocation lat lng = loc) := by
  refine ⟨?_, ?_, ?_⟩
  · intro h
    simp [GetTimezone, h]
  · intro h
    by_cases hz : lookupZoneName lat lng = ""
    · simp [GetTimezone, hz]
    · simp [GetTimezone, hz, h]
  · intro loc hz hl
    simp [GetTimezone, hz, hl]

/-- Witness for C9: a lookup with no known zone and a loader that always
fails both fall back to UTC; a loadable zone is returned as-is. -/
theorem getTimezone_total_fallback_witness :
    GetTimezone (fun _ _ => "") (fun _ => none) 0 0 = utcLoc ∧
      GetTimezone (fun _ _ => "Europe/Copenhagen") (fun _ => none) 0 0 = utcLoc ∧
      GetTimezone (fun _ _ => "Europe/Copenhagen") (fun _ => some (fun _ => 3600)) 0 0
        = fun _ => 3600 :=
  ⟨(getTimezone_total_fallback (fun _ _ => "") (fun _ => none) 0 0).1 rfl,
   (getTimezone_total_fallback (fun _ _ => "Europe/Copenhagen") (fun _ => none) 0 0).2.1 rfl,
   (getTimezone_total_fallback (fun _ _ => "Europe/Copenhagen")
      (fun _ => some (fun _ => 3600)) 0 0).2.2 (fun _ => 3600) (by simp) rfl⟩


lemma data_append (s t : String) : (s ++ t).data = s.data ++ t.data := by
  cases s; cases t; rfl

lemma mem_dayLen_cases (o1 o2 : Option SunEvent) (s : String)
    (h : s ∈ (match o1, o2 with
      | some r, some s0 =>
        ["Day length: " ++ toString (Int.tdiv (s0.time - r.time) 3600) ++ "h "
          ++ toString (Int.tmod (Int.tdiv (s0.time - r.time) 60) 60) ++ "m"]
      | _, _ => ([] : List String))) :
    o1.isSome = true ∧ o2.isSome = true ∧
      ∃ a b : Int, s = "Day length: " ++ toString a ++ "h " ++ toString b ++ "m" := by
  rcases o1 with _ | r <;> rcases o2 with _ | s0 <;> simp at h
  exact ⟨rfl, rfl, _, _, h⟩

lemma mem_yesterday_cases (prevDay : Option DaySunTimes) (event : SunEvent)
    (tz : Location) (s : String)
    (h : s ∈ (match prevDay with
      | none => ([] : List String)
      | some p =>
        match (if event.type = "sunrise" then p.sunrise else p.sunset) with
        | none => []
        | some pe =>
          if Int.tdiv (wallSeconds tz event.time - wallSeconds tz pe.time) 60 ≠ 0 then
            ["Yesterday: "
              ++ toString (if Int.tdiv (wallSeconds tz event.time
                    - wallSeconds tz pe.time) 60 < 0 then
                  -Int.tdiv (wallSeconds tz event.time - wallSeconds tz pe.time) 60
                else Int.tdiv (wallSeconds tz event.time - wallSeconds tz pe.time) 60)
              ++ "m "
              ++ (if Int.tdiv (wallSeconds tz event.time - wallSeconds tz pe.time) 60 < 0
                  then "earlier" else "later")]
          else ["Yesterday: same time"])) :
    (∃ p pe, prevDay = some p ∧
        (if event.type = "sunrise" then p.sunrise else p.sunset) = some pe) ∧
      ((∃ v : Int, ∃ dir : String, s = "Yesterday: " ++ toString v ++ "m " ++ dir) ∨
        s = "Yesterday: same time") := by
  rcases prevDay with _ | p
  · simp at h
  · dsimp only at h
    rcases hif : (if event.type = "sunrise" then p.sunrise else p.sunset) with _ | pe <;>
      rw [hif] at h <;> dsimp only at h
    · simp at h
    · refine ⟨⟨p, pe, rfl, hif⟩, ?_⟩
      by_cases hdm :
          Int.tdiv (wallSeconds tz event.time - wallSeconds tz pe.time) 60 = 0
      · rw [if_neg (by simpa using hdm)] at h
        simp at h
        exact Or.inr h
      · rw [if_pos hdm] at h
        simp at h
        exact Or.inl ⟨_, _, h⟩

lemma solstice_line_cases (n : Int × String) (s : String)
    (h : s = (if n.1 = 0 then "Today is the " ++ n.2 ++ " solstice!"
      else "Next solstice: " ++ toString n.1 ++ " days (" ++ n.2 ++ ")")) :
    (∃ w, s = "Today is the " ++ w ++ " solstice!") ∨
      (∃ m : Int, ∃ w, s = "Next solstice: " ++ toString m ++ " days (" ++ w ++ ")") := by
  by_cases hz : n.1 = 0
  · rw [if_pos hz] at h
    exact Or.inl ⟨_, h⟩
  · rw [if_neg hz] at h
    exact Or.inr ⟨_, _, h⟩

/-- Every rendered line of `buildDescriptionLines` has one of the fixed
shapes, and the conditional lines can only occur when their conditions
hold. -/
lemma mem_buildDescriptionLines_cases (event : SunEvent) (day : DaySunTimes)
    (prevDay : Option DaySunTimes) (lat lng : ℚ) (location : String) (tz : Location)
    (s : String)
    (hs : s ∈ buildDescriptionLines event day prevDay lat lng location tz) :
    s = "Time: " ++ formatHMS tz event.time ∨
      s = "Location: " ++ location ∨
      s = "Coordinates: " ++ formatFixed 4 lat ++ ", " ++ formatFixed 4 lng ∨
      s = "Azimuth: " ++ formatFixed 1 event.azimuth ++ "Â°" ∨
      s = "" ∨
      (day.sunrise.isSome = true ∧ day.sunset.isSome = true ∧
        ∃ a b : Int, s = "Day length: " ++ toString a ++ "h " ++ toString b ++ "m") ∨
      ((∃ p pe, prevDay = some p ∧
          (if event.type = "sunrise" then p.sunrise else p.sunset) = some pe) ∧
        ((∃ v : Int, ∃ dir : String, s = "Yesterday: " ++ toString v ++ "m " ++ dir) ∨
          s = "Yesterday: same time")) ∨
      (∃ w, s = "Today is the " ++ w ++ " solstice!") ∨
      (∃ m : Int, ∃ w, s = "Next solstice: " ++ toString m ++ " days (" ++ w ++ ")") := by
  simp only [buildDescriptionLines, List.mem_append, List.mem_cons, List.mem_singleton,
    List.not_mem_nil, or_false] at hs
  rcases hs with (((h | h | h | h | h) | h) | h) | h
  · exact .inl h
  · exact .inr (.inl h)
  · exact .inr (.inr (.inl h))
  · exact .inr (.inr (.inr (.inl h)))
  · exact .inr (.inr (.inr (.inr (.inl h))))
  · exact .inr (.inr (.inr (.inr (.inr (.inl
      (mem_dayLen_cases day.sunrise day.sunset s h))))))
  · exact .inr (.inr (.inr (.inr (.inr (.inr (.inl
      (mem_yesterday_cases prevDay event tz s h)))))))
  · rcases solstice_line_cases (DaysUntilNextSolstice event.time) s h with h2 | h2
    · exact .inr (.inr (.inr (.inr (.inr (.inr (.inr (.inl h2)))))))
    · exact .inr (.inr (.inr (.inr (.inr (.inr (.inr (.inr h2)))))))

lemma not_delta_of_head (s : String) (c : Char) (l : List Char)
    (h : s.data = c :: l) (hc : c ≠ 'Y') : ¬ isDeltaLine s := by
  rintro ⟨t, rfl⟩
  rw [data_append] at h
  have h2 : some 'Y' = some c := congrArg List.head? h
  exact hc (Option.some.inj h2).symm

lemma not_delta_empty : ¬ isDeltaLine "" := by
  rintro ⟨t, h⟩
  have h2 := congrArg String.data h
  rw [data_append] at h2
  have h3 : some 'Y' = (none : Option Char) := (congrArg List.head? h2).symm
  simp at h3

lemma not_dayLength_of_head (s : String) (c : Char) (l : List Char)
    (h : s.data = c :: l) (hc : c ≠ 'D') : ¬ isDayLengthLine s := by
  rintro ⟨t, rfl⟩
  rw [data_append] at h
  have h2 : some 'D' = some c := congrArg List.head? h
  exact hc (Option.some.inj h2).symm

lemma not_dayLength_empty : ¬ isDayLengthLine "" := by
  rintro ⟨t, h⟩
  have h2 := congrArg String.data h
  rw [data_append] at h2
  have h3 : some 'D' = (none : Option Char) := (congrArg List.head? h2).symm
  simp at h3

/-- **C7.** The Report Builder omits lines rather than rendering them as
zero: when `prevDay` is absent or lacks an event of the matching kind no
line of the block is a "Yesterday: ..." delta line, and when sunrise or
sunset is absent for the current day no line is a "Day length: ..." line. -/
theorem buildDescription_omits_lines (event : SunEvent) (day : DaySunTimes)
    (prevDay : Option DaySunTimes) (lat lng : ℚ) (location : String) (tz : Location) :
    ((prevDay = none ∨ ∃ p, prevDay = some p ∧
        (if event.type = "sunrise" then p.sunrise else p.sunset) = none) →
      ∀ s ∈ buildDescriptionLines event day prevDay lat lng location tz, ¬ isDeltaLine s) ∧
      ((day.sunrise = none ∨ day.sunset = none) →
        ∀ s ∈ buildDescriptionLines event day prevDay lat lng location tz,
          ¬ isDayLengthLine s) := by
  constructor
  · intro hprev s hs
    rcases mem_buildDescriptionLines_cases event day prevDay lat lng location tz s hs with
      h | h | h | h | h | ⟨_, _, a, b, h⟩ | ⟨⟨p, pe, hp, hpe⟩, _⟩ | ⟨w, h⟩ | ⟨m, w, h⟩
    · exact h ▸ not_delta_of_head _ 'T' _ (by rw [data_append]; rfl) (by decide)
    · exact h ▸ not_delta_of_head _ 'L' _ (by rw [data_append]; rfl) (by decide)
    · exact h ▸ not_delta_of_head _ 'C' _
        (by rw [data_append, data_append, data_append]; rfl) (by decide)
    · exact h ▸ not_delta_of_head _ 'A' _ (by rw [data_append, data_append]; rfl) (by decide)
    · exact h ▸ not_delta_empty
    · exact h ▸ not_delta_of_head _ 'D' _
        (by rw [data_append, data_append, data_append, data_append]; rfl) (by decide)
    · rcases hprev with hnone | ⟨p', hp', hpe'⟩
      · rw [hnone] at hp
        exact absurd hp (by simp)
      · rw [hp', Option.some.injEq] at hp
        subst hp
        rw [hpe'] at hpe
        exact absurd hpe (by simp)
    · exact h ▸ not_delta_of_head _ 'T' _ (by rw [data_append, data_append]; rfl) (by decide)
    · exact h ▸ not_delta_of_head _ 'N' _
        (by rw [data_append, data_append, data_append, data_append]; rfl) (by decide)
  · intro hday s hs
    rcases mem_buildDescriptionLines_cases event day prevDay lat lng location tz s hs with
      h | h | h | h | h | ⟨h1, h2, _⟩ | ⟨_, ⟨v, dir, h⟩ | h⟩ | ⟨w, h⟩ | ⟨m, w, h⟩
    · exact h ▸ not_dayLength_of_head _ 'T' _ (by rw [data_append]; rfl) (by decide)
    · exact h ▸ not_dayLength_of_head _ 'L' _ (by rw [data_append]; rfl) (by decide)
    · exact h ▸ not_dayLength_of_head _ 'C' _
        (by rw [data_append, data_append, data_append]; rfl) (by decide)
    · exact h ▸ not_dayLength_of_head _ 'A' _ (by rw [data_append, data_append]; rfl)
        (by decide)
    · exact h ▸ not_dayLength_empty
    · rcases hday with h' | h'
      · rw [h'] at h1
        exact absurd h1 (by simp)
      · rw [h'] at h2
        exact absurd h2 (by simp)
    · exact h ▸ not_dayLength_of_head _ 'Y' _
        (by rw [data_append, data_append, data_append]; rfl) (by decide)
    · exact h ▸ not_dayLength_of_head _ 'Y' _ rfl (by decide)
    · exact h ▸ not_dayLength_of_head _ 'T' _ (by rw [data_append, data_append]; rfl)
        (by decide)
    · exact h ▸ not_dayLength_of_head _ 'N' _
        (by rw [data_append, data_append, data_append, data_append]; rfl) (by decide)

/-- Witness for C7 at concrete inputs with no previous day and no sunrise:
the rendered block has neither a delta line nor a day-length line. -/
theorem buildDescription_omits_lines_witness :
    (∀ s ∈ buildDescriptionLines ⟨"sunrise", 21720, 84, 0⟩ ⟨0, none, none⟩ none
        55 12 "CPH" utcLoc, ¬ isDeltaLine s) ∧
      (∀ s ∈ buildDescriptionLines ⟨"sunrise", 21720, 84, 0⟩ ⟨0, none, none⟩ none
        55 12 "CPH" utcLoc, ¬ isDayLengthLine s) :=
  ⟨(buildDescription_omits_lines ⟨"sunrise", 21720, 84, 0⟩ ⟨0, none, none⟩ none
      55 12 "CPH" utcLoc).1 (Or.inl rfl),
   (buildDescription_omits_lines ⟨"sunrise", 21720, 84, 0⟩ ⟨0, none, none⟩ none
      55 12 "CPH" utcLoc).2 (Or.inl rfl)⟩

/-- **C6.** The day-over-day delta compares wall-clock seconds in the local
timezone: a matching-kind event whose local wall clock is exactly 180
seconds earlier than the previous day's renders the line
"Yesterday: 3m earlier", and an identical wall clock renders
"Yesterday: same time". -/
theorem buildDescription_delta_wording (event : SunEvent) (day : DaySunTimes)
    (p : DaySunTimes) (pe : SunEvent) (lat lng : ℚ) (location : String) (tz : Location)
    (hpe : (if event.type = "sunrise" then p.sunrise else p.sunset) = some pe) :
    (wallSeconds tz event.time = wallSeconds tz pe.time - 180 →
      "Yesterday: 3m earlier"
        ∈ buildDescriptionLines event day (some p) lat lng location tz) ∧
      (wallSeconds tz event.time = wallSeconds tz pe.time →
        "Yesterday: same time"
          ∈ buildDescriptionLines event day (some p) lat lng location tz) := by
  constructor
  · intro hw
    have hd : wallSeconds tz event.time - wallSeconds tz pe.time = -180 := by omega
    simp only [buildDescriptionLines, hpe]
    rw [hd]
    refine List.mem_append.2 (Or.inl (List.mem_append.2 (Or.inr ?_)))
    decide
  · intro hw
    have hd : wallSeconds tz event.time - wallSeconds tz pe.time = 0 := by omega
    simp only [buildDescriptionLines, hpe]
    rw [hd]
    refine List.mem_append.2 (Or.inl (List.mem_append.2 (Or.inr ?_)))
    decide

/-- Witness for C6 at concrete sunrise events 06:02:00 vs 06:05:00 UTC
(3 minutes earlier) and sunset events with identical wall clocks on
consecutive days. -/
theorem buildDescription_delta_wording_witness :
    "Yesterday: 3m earlier"
      ∈ buildDescriptionLines ⟨"sunrise", 21720, 84, 0⟩ ⟨0, none, none⟩
        (some ⟨0, some ⟨"sunrise", 21900, 84, 0⟩, none⟩) 55 12 "CPH" utcLoc ∧
      "Yesterday: same time"
        ∈ buildDescriptionLines ⟨"sunset", 64800, 270, 0⟩ ⟨0, none, none⟩
          (some ⟨0, none, some ⟨"sunset", 64800 - 86400, 270, 0⟩⟩) 55 12 "CPH" utcLoc :=
  ⟨(buildDescription_delta_wording ⟨"sunrise", 21720, 84, 0⟩ ⟨0, none, none⟩
      ⟨0, some ⟨"sunrise", 21900, 84, 0⟩, none⟩ ⟨"sunrise", 21900, 84, 0⟩
      55 12 "CPH" utcLoc (by decide)).1 (by decide),
   (buildDescription_delta_wording ⟨"sunset", 64800, 270, 0⟩ ⟨0, none, none⟩
      ⟨0, none, some ⟨"sunset", 64800 - 86400, 270, 0⟩⟩ ⟨"sunset", 64800 - 86400, 270, 0⟩
      55 12 "CPH" utcLoc (by decide)).2 (by decide)⟩

lemma dayLen_segment_eq (o1 o2 : Option SunEvent) :
    (match o1, o2 with
      | some r, some s0 =>
        ["Day length: " ++ toString (Int.tdiv (s0.time - r.time) 3600) ++ "h "
          ++ toString (Int.tmod (Int.tdiv (s0.time - r.time) 60) 60) ++ "m"]
      | _, _ => ([] : List String))
      = (if h : o1.isSome ∧ o2.isSome then
          ["Day length: " ++ toString (Int.tdiv ((o2.get h.2).time - (o1.get h.1).time) 3600)
            ++ "h "
            ++ toString (Int.tmod (Int.tdiv ((o2.get h.2).time - (o1.get h.1).time) 60) 60)
            ++ "m"]
        else []) := by
  rcases o1 with _ | r <;> rcases o2 with _ | s0 <;> simp

lemma delta_segment_eq (prevDay : Option DaySunTimes) (event : SunEvent) (tz : Location) :
    (match prevDay with
      | none => ([] : List String)
      | some p =>
        match (if event.type = "sunrise" then p.sunrise else p.sunset) with
        | none => []
        | some pe =>
          if Int.tdiv (wallSeconds tz event.time - wallSeconds tz pe.time) 60 ≠ 0 then
            ["Yesterday: "
              ++ toString (if Int.tdiv (wallSeconds tz event.time
                    - wallSeconds tz pe.time) 60 < 0 then
                  -Int.tdiv (wallSeconds tz event.time - wallSeconds tz pe.time) 60
                else Int.tdiv (wallSeconds tz event.time - wallSeconds tz pe.time) 60)
              ++ "m "
              ++ (if Int.tdiv (wallSeconds tz event.time - wallSeconds tz pe.time) 60 < 0
                  then "earlier" else "later")]
          else ["Yesterday: same time"])
      = (match prevDay.bind
            (fun p => if event.type = "sunrise" then p.sunrise else p.sunset) with
        | none => []
        | some pe =>
          let d := Int.tdiv (wallSeconds tz event.time - wallSeconds tz pe.time) 60
          if 0 < d then ["Yesterday: " ++ toString d ++ "m later"]
          else if d < 0 then ["Yesterday: " ++ toString (-d) ++ "m earlier"]
          else ["Yesterday: same time"]) := by
  rcases prevDay with _ | p
  · rfl
  · simp only [Option.some_bind]
    rcases hif : (if event.type = "sunrise" then p.sunrise else p.sunset) with _ | pe <;>
      simp only [hif]
    · rcases lt_trichotomy
        (Int.tdiv (wallSeconds tz event.time - wallSeconds tz pe.time) 60) 0 with h | h | h
      · have h1 : Int.tdiv (wallSeconds tz event.time - wallSeconds tz pe.time) 60 ≠ 0 := by
          omega
        have h2 : ¬ (0 < Int.tdiv (wallSeconds tz event.time - wallSeconds tz pe.time) 60) := by
          omega
        rw [if_pos h1, if_neg h2, if_pos h, if_pos h, if_pos h, String.append_assoc]
        rfl
      · rw [if_neg (by simpa using h), if_neg (by omega), if_neg (by omega)]
      · have h1 : Int.tdiv (wallSeconds tz event.time - wallSeconds tz pe.time) 60 ≠ 0 := by
          omega
        have h2 : ¬ (Int.tdiv (wallSeconds tz event.time - wallSeconds tz pe.time) 60 < 0) := by
          omega
        rw [if_pos h1, if_neg h2, if_neg h2, if_pos h, String.append_assoc]
        rfl

/-- **C8 (amended).** The rendered text block equals the spec's fixed-order
rendering — local time, location label, coordinates (4 dp), azimuth (1 dp),
blank line, day length when both events are present, wall-clock delta when
the previous day has a matching event, and the solstice countdown line
("Today is the {which} solstice!" at 0 days, otherwise
"Next solstice: N days ({which})") — except that the azimuth unit is the
source format string's mojibake "Â°" rather than a clean degree symbol. -/
theorem buildDescription_fixed_order (event : SunEvent) (day : DaySunTimes)
    (prevDay : Option DaySunTimes) (lat lng : ℚ) (location : String) (tz : Location) :
    buildDescription event day prevDay lat lng location tz
      = describeSpecAmended event day prevDay lat lng location tz := by
  simp only [buildDescription, buildDescriptionLines, describeSpecAmended]
  rw [dayLen_segment_eq day.sunrise day.sunset, delta_segment_eq prevDay event tz]

/-- Counterexample to C8 as stated: at a concrete event the rendered block
differs from the spec's degree-symbol rendering `describeSpec` — the
azimuth line carries the stray U+00C2 byte of the source's format string. -/
theorem buildDescription_ne_describeSpec :
    buildDescription ⟨"sunrise", 21720, 84, 0⟩ ⟨0, none, none⟩ none 55 12 "CPH" utcLoc
      ≠ describeSpec ⟨"sunrise", 21720, 84, 0⟩ ⟨0, none, none⟩ none 55 12 "CPH" utcLoc := by
  decide

lemma h0R_bounds : -(3/100 : ℝ) < h0R ∧ h0R < 0 := by
  unfold h0R
  constructor <;> nlinarith [Real.pi_gt_three, Real.pi_lt_d2]

lemma phiGraze_bounds : 0 < phiGraze ∧ phiGraze < Real.pi / 2 := by
  obtain ⟨h1, h2⟩ := h0R_bounds
  unfold phiGraze
  constructor <;> nlinarith [Real.pi_gt_three, Real.pi_lt_d2]

lemma phiMidnight_bounds : 0 < phiMidnight ∧ phiMidnight < Real.pi / 2 := by
  obtain ⟨h1, h2⟩ := h0R_bounds
  unfold phiMidnight
  constructor <;> nlinarith [Real.pi_gt_three, Real.pi_lt_d2]

lemma cos_phiGraze_pos : 0 < Real.cos phiGraze :=
  Real.cos_pos_of_mem_Ioo
    ⟨by nlinarith [phiGraze_bounds.1, Real.pi_gt_three], phiGraze_bounds.2⟩

lemma sin_phiGraze_pos : 0 < Real.sin phiGraze :=
  Real.sin_pos_of_pos_of_lt_pi phiGraze_bounds.1
    (by nlinarith [phiGraze_bounds.2, Real.pi_gt_three])

lemma cos_decGraze_pos : 0 < Real.cos decGraze := by
  unfold decGraze
  rw [Real.cos_neg]
  exact Real.cos_pos_of_mem_Ioo
    ⟨by nlinarith [Real.pi_gt_three], by nlinarith [Real.pi_gt_three]⟩

lemma cos_phiMidnight_pos : 0 < Real.cos phiMidnight :=
  Real.cos_pos_of_mem_Ioo
    ⟨by nlinarith [phiMidnight_bounds.1, Real.pi_gt_three], phiMidnight_bounds.2⟩

lemma sin_phiMidnight_pos : 0 < Real.sin phiMidnight :=
  Real.sin_pos_of_pos_of_lt_pi phiMidnight_bounds.1
    (by nlinarith [phiMidnight_bounds.2, Real.pi_gt_three])

lemma cos_decMidnight_pos : 0 < Real.cos decMidnight := by
  unfold decMidnight
  exact Real.cos_pos_of_mem_Ioo
    ⟨by nlinarith [Real.pi_gt_three], by nlinarith [Real.pi_gt_three]⟩

lemma tan_decGraze_neg : Real.tan decGraze < 0 := by
  unfold decGraze
  rw [Real.tan_neg]
  have : 0 < Real.tan (3/10 : ℝ) :=
    Real.tan_pos_of_pos_of_lt_pi_div_two (by norm_num)
      (by nlinarith [Real.pi_gt_three])
  linarith

lemma tan_decMidnight_pos : 0 < Real.tan decMidnight := by
  unfold decMidnight
  exact Real.tan_pos_of_pos_of_lt_pi_div_two (by norm_num)
    (by nlinarith [Real.pi_gt_three])

/-- At the grazing-noon configuration the horizon-crossing cosine is
exactly 1. -/
lemma sunriseSetX_graze : sunriseSetX phiGraze decGraze = 1 := by
  have hfd : phiGraze - decGraze = Real.pi / 2 - h0R := by
    unfold phiGraze decGraze
    ring
  have hsin : Real.sin h0R = Real.cos (phiGraze - decGraze) := by
    rw [hfd, Real.cos_pi_div_two_sub]
  have hnum : Real.sin h0R - Real.sin phiGraze * Real.sin decGraze
      = Real.cos phiGraze * Real.cos decGraze := by
    rw [hsin, Real.cos_sub]
    ring
  unfold sunriseSetX
  rw [hnum]
  exact div_self (ne_of_gt (mul_pos cos_phiGraze_pos cos_decGraze_pos))

/-- At the midnight-sun configuration the horizon-crossing cosine is
exactly -1. -/
lemma sunriseSetX_midnight : sunriseSetX phiMidnight decMidnight = -1 := by
  have hfd : phiMidnight + decMidnight = Real.pi / 2 - (-h0R) := by
    unfold phiMidnight decMidnight
    ring
  have hsin : Real.sin h0R = -Real.cos (phiMidnight + decMidnight) := by
    rw [hfd, Real.cos_pi_div_two_sub, Real.sin_neg]
    ring
  have hnum : Real.sin h0R - Real.sin phiMidnight * Real.sin decMidnight
      = -(Real.cos phiMidnight * Real.cos decMidnight) := by
    rw [hsin, Real.cos_add]
    ring
  unfold sunriseSetX
  rw [hnum, neg_div]
  rw [div_self (ne_of_gt (mul_pos cos_phiMidnight_pos cos_decMidnight_pos))]

/-- The azimuth of an event with hour angle 0 (sun due south above a
northern-hemisphere viewpoint) is 180°. -/
lemma sunEventAzimuth_at_zero (phi dec : ℝ)
    (hpos : 0 < Real.sin phi - Real.tan dec * Real.cos phi) :
    sunEventAzimuth 0 phi dec = 180 := by
  unfold sunEventAzimuth sunPosAzimuth atan2
  rw [Real.sin_zero, Real.cos_zero, one_mul]
  have hz : (⟨Real.sin phi - Real.tan dec * Real.cos phi, 0⟩ : ℂ)
      = ((Real.sin phi - Real.tan dec * Real.cos phi : ℝ) : ℂ) := rfl
  rw [hz, Complex.arg_ofReal_of_nonneg (le_of_lt hpos)]
  unfold radToDegReal
  norm_num

/-- The azimuth of an event with hour angle ±π (sun due north) is 360°
under the `radToDeg + 180` conversion, because the mathematical atan2 of
that direction is π, not -π. -/
lemma sunEventAzimuth_at_pi (phi dec : ℝ) (H : ℝ)
    (hH : H = Real.pi ∨ H = -Real.pi)
    (hneg : -Real.sin phi - Real.tan dec * Real.cos phi < 0) :
    sunEventAzimuth H phi dec = 360 := by
  unfold sunEventAzimuth sunPosAzimuth atan2
  have hsin : Real.sin H = 0 := by
    rcases hH with h | h <;> rw [h]
    · exact Real.sin_pi
    · rw [Real.sin_neg, Real.sin_pi, neg_zero]
  have hcos : Real.cos H = -1 := by
    rcases hH with h | h <;> rw [h]
    · exact Real.cos_pi
    · rw [Real.cos_neg, Real.cos_pi]
  rw [hsin, hcos]
  have he : (-1 : ℝ) * Real.sin phi - Real.tan dec * Real.cos phi
      = -Real.sin phi - Real.tan dec * Real.cos phi := by ring
  rw [he]
  have hz : (⟨-Real.sin phi - Real.tan dec * Real.cos phi, 0⟩ : ℂ)
      = ((-Real.sin phi - Real.tan dec * Real.cos phi : ℝ) : ℂ) := rfl
  rw [hz, Complex.arg_ofReal_of_neg hneg]
  unfold radToDegReal
  field_simp
  norm_num

/-- At the grazing-noon configuration both events are present and coincide
at solar noon, with azimuth exactly 180° (due south). -/
lemma computeDay_graze : computeDay phiGraze decGraze 0 = (some (0, 180), some (0, 180)) := by
  have hpos : 0 < Real.sin phiGraze - Real.tan decGraze * Real.cos phiGraze := by
    nlinarith [sin_phiGraze_pos, mul_pos (neg_pos.2 tan_decGraze_neg) cos_phiGraze_pos]
  unfold computeDay
  rw [sunriseSetX_graze, if_pos (by norm_num : |(1:ℝ)| ≤ 1), Real.arccos_one, neg_zero,
    sunEventAzimuth_at_zero phiGraze decGraze hpos]
  norm_num

/-- At the midnight-sun configuration both events are present, half a day
before and after solar noon, with azimuth exactly 360° (due north). -/
lemma computeDay_midnight :
    computeDay phiMidnight decMidnight 0 = (some (-43200, 360), some (43200, 360)) := by
  have hneg : -Real.sin phiMidnight - Real.tan decMidnight * Real.cos phiMidnight < 0 := by
    nlinarith [sin_phiMidnight_pos, mul_pos tan_decMidnight_pos cos_phiMidnight_pos]
  unfold computeDay
  rw [sunriseSetX_midnight, if_pos (by norm_num : |(-1:ℝ)| ≤ 1), Real.arccos_neg_one,
    sunEventAzimuth_at_pi phiMidnight decMidnight (-Real.pi) (Or.inr rfl) hneg,
    sunEventAzimuth_at_pi phiMidnight decMidnight Real.pi (Or.inl rfl) hneg]
  have hp : Real.pi * (43200 / Real.pi) = 43200 := by
    field_simp
  rw [hp]
  norm_num

/-- The `radToDeg + 180` conversion of a mathematical atan2 value lands in
the closed interval [0°, 360°]. -/
lemma sunEventAzimuth_mem (H phi dec : ℝ) :
    sunEventAzimuth H phi dec ∈ Set.Icc (0:ℝ) 360 := by
  obtain ⟨h1, h2⟩ := Complex.arg_mem_Ioc
    (⟨Real.cos H * Real.sin phi - Real.tan dec * Real.cos phi, Real.sin H⟩ : ℂ)
  unfold sunEventAzimuth sunPosAzimuth atan2 radToDegReal
  have hpi := Real.pi_pos
  constructor
  · have hlow : (-180:ℝ) ≤ Complex.arg
        ⟨Real.cos H * Real.sin phi - Real.tan dec * Real.cos phi, Real.sin H⟩
          * 180 / Real.pi := by
      rw [le_div_iff₀ hpi]
      nlinarith [h1]
    linarith
  · have hhigh : Complex.arg
        ⟨Real.cos H * Real.sin phi - Real.tan dec * Real.cos phi, Real.sin H⟩
          * 180 / Real.pi ≤ 180 := by
      rw [div_le_iff₀ hpi]
      nlinarith [h2]
    linarith

/-- **C1 (amended).** Every azimuth attached to a computed sun event lies
in the closed interval [0°, 360°]: it is the south-referenced atan2 value
(range (-π, π]) shifted by 180° via `radToDeg`.  The upper endpoint 360° is
attained (see the counterexample), so the half-open interval of the
original claim does not hold. -/
theorem computeDay_azimuth_range (phi dec noon t a : ℝ)
    (h : (computeDay phi dec noon).1 = some (t, a) ∨
      (computeDay phi dec noon).2 = some (t, a)) :
    a ∈ Set.Icc (0:ℝ) 360 := by
  unfold computeDay at h
  by_cases hx : |sunriseSetX phi dec| ≤ 1
  · rw [if_pos hx] at h
    rcases h with h | h <;>
      simp only [Option.some.injEq, Prod.mk.injEq] at h <;>
      rw [← h.2] <;>
      exact sunEventAzimuth_mem _ _ _
  · rw [if_neg hx] at h
    rcases h with h | h <;> simp at h

/-- Witness for C1: at the grazing-noon configuration the sunrise event is
present with azimuth 180°, inside [0°, 360°]. -/
theorem computeDay_azimuth_range_witness :
    (computeDay phiGraze decGraze 0).1 = some (0, 180) ∧
      (180:ℝ) ∈ Set.Icc (0:ℝ) 360 :=
  ⟨by rw [computeDay_graze], computeDay_azimuth_range phiGraze decGraze 0 0 180
    (Or.inl (by rw [computeDay_graze]))⟩

/-- Counterexample to C1 as stated: at the midnight-sun tangency
configuration the computed sunset event carries azimuth exactly 360°,
which is not in the half-open interval [0°, 360°). -/
theorem computeDay_azimuth_not_Ico :
    (computeDay phiMidnight decMidnight 0).2 = some (43200, 360) ∧
      (360:ℝ) ∉ Set.Ico (0:ℝ) 360 :=
  ⟨by rw [computeDay_midnight], by simp⟩

/-- **C2 (amended).** Whenever both the sunrise and the sunset event of a
day are present, the sunrise instant is less than or equal to the sunset
instant; equality occurs exactly in the degenerate tangency case (hour
angle 0), so "strictly before" in the original claim does not hold. -/
theorem computeDay_sunrise_le_sunset (phi dec noon t1 a1 t2 a2 : ℝ)
    (h1 : (computeDay phi dec noon).1 = some (t1, a1))
    (h2 : (computeDay phi dec noon).2 = some (t2, a2)) :
    t1 ≤ t2 := by
  unfold computeDay at h1 h2
  by_cases hx : |sunriseSetX phi dec| ≤ 1
  · rw [if_pos hx] at h1 h2
    simp only [Option.some.injEq, Prod.mk.injEq] at h1 h2
    rw [← h1.1, ← h2.1]
    have hw : 0 ≤ Real.arccos (sunriseSetX phi dec) := Real.arccos_nonneg _
    have hc : (0:ℝ) ≤ 43200 / Real.pi := by positivity
    nlinarith [mul_nonneg hw hc]
  · rw [if_neg hx] at h1
    simp at h1

/-- Witness for C2 at the grazing-noon configuration: both events present,
sunrise ≤ sunset. -/
theorem computeDay_sunrise_le_sunset_witness :
    (computeDay phiGraze decGraze 0).1 = some (0, 180) ∧ (0:ℝ) ≤ 0 :=
  ⟨by rw [computeDay_graze],
   computeDay_sunrise_le_sunset phiGraze decGraze 0 0 180 0 180
     (by rw [computeDay_graze]) (by rw [computeDay_graze])⟩

/-- Counterexample to C2 as stated: at the grazing-noon configuration both
events are present but coincide, so the sunrise is not strictly before the
sunset. -/
theorem computeDay_not_strict :
    (computeDay phiGraze decGraze 0).1 = some (0, 180) ∧
      (computeDay phiGraze decGraze 0).2 = some (0, 180) ∧ ¬ ((0:ℝ) < 0) :=
  ⟨by rw [computeDay_graze], by rw [computeDay_graze], by norm_num⟩
